import Mathlib

/-!
# go-todo: the authenticated CRUD state machine of `main.go`

A shallow embedding of `src/main.go`.

* A Go `string` is a sequence of bytes; `len` and slicing count bytes.
* The package-level variable `todoList` is threaded explicitly: a handler maps
  the request and the current `todoList` to the new `todoList` and the response.
* Library calls whose result the handlers only inspect are parameters:
  `json.NewDecoder(r.Body).Decode` (`decodeUser`, `decodeTodo`, `none` when it
  returns an error), `jwt.ParseWithClaims` followed by the `token.Valid` test
  (`verify`), `token.SignedString` (`signedString`), `time.Now` (`now`) and
  `uuid.New` (`newID`, the value it returns).
* `uuid.UUID.String` is modelled after `google/uuid` (`encodeHex`) together with
  `encoding/hex` (`hex.Encode`).
* `log.Printf` only writes to the log and is left out.
-/

namespace GoTodo

/-! ## Go strings -/

/-- Go `byte`. -/
abbrev Byte := Fin 256

/-- Go `string`: a sequence of bytes. -/
abbrev GoString := List Byte

/-- The bytes of an ASCII literal of the source. -/
def str (s : String) : GoString := s.toList.map (fun c => Fin.ofNat c.toNat)

/-- The slice expression `s[lo:]`: a run-time panic (`none`) when `lo > len(s)`. -/
def sliceFrom (s : GoString) (lo : Nat) : Option GoString :=
  if lo ≤ s.length then some (s.drop lo) else none

/-! ## Data model -/

/-- Instants of `time.Time`, in nanoseconds. -/
abbrev Time := Int

/-- The `time.Minute` constant, in nanoseconds. -/
def Minute : Int := 60 * 1000000000

/-- The type `uuid.UUID`, that is `[16]byte`. -/
structure UUID where
  bytes : List Byte
  size : bytes.length = 16
  deriving DecidableEq

/-- The zero value of `uuid.UUID` (`uuid.Nil`). -/
def UUID.Nil : UUID := ⟨List.replicate 16 0, by decide⟩

instance : Inhabited UUID := ⟨UUID.Nil⟩

/-- The table `hextable` of `encoding/hex`. -/
def hextable : GoString := str "0123456789abcdef"

/-- The function `hex.Encode`: two lower-case hexadecimal digits per byte. -/
def hexEncode : List Byte → GoString
  | [] => []
  | v :: src => hextable.getD (v.val >>> 4) 0 :: hextable.getD (v.val &&& 0x0f) 0 :: hexEncode src

/-- The byte `'-'`. -/
def dash : Byte := 45

/-- The method `(uuid UUID) String()`: form `xxxxxxxx-xxxx-xxxx-xxxx-xxxxxxxxxxxx`. -/
def UUID.String (uuid : UUID) : GoString :=
  hexEncode (uuid.bytes.take 4) ++ dash ::
  hexEncode ((uuid.bytes.drop 4).take 2) ++ dash ::
  hexEncode ((uuid.bytes.drop 6).take 2) ++ dash ::
  hexEncode ((uuid.bytes.drop 8).take 2) ++ dash ::
  hexEncode (uuid.bytes.drop 10)

/-- The struct `User`. -/
structure User where
  Username : GoString
  Password : GoString
  deriving DecidableEq

/-- The struct `Todo`. -/
structure Todo where
  ID : UUID
  Title : GoString
  Description : GoString
  DueDate : Time
  deriving DecidableEq

instance : Inhabited Todo := ⟨⟨UUID.Nil, [], [], 0⟩⟩

/-- The predefined users, `var users = map[string]string{...}`. -/
def users : List (GoString × GoString) :=
  [(str "user1", str "password1"), (str "user2", str "password2")]

/-! ## Requests and responses -/

/-- What the handlers read of an `*http.Request`. -/
structure Request where
  /-- The value of `r.Header.Get("Authorization")`, empty when the header is missing. -/
  authorization : GoString
  /-- The value of `mux.Vars(r)["id"]`. -/
  id : GoString
  /-- The bytes of `r.Body`. -/
  body : GoString

/-- What a handler writes as response body. -/
inductive Body where
  | text (msg : String)
  | token (tokenStr : GoString)
  | todo (t : Todo)
  | todos (l : List Todo)
  | empty
  deriving DecidableEq

/-- The status code and body written to the `http.ResponseWriter`. -/
structure Response where
  status : Nat
  body : Body
  deriving DecidableEq

def StatusOK : Nat := 200
def StatusNoContent : Nat := 204
def StatusBadRequest : Nat := 400
def StatusUnauthorized : Nat := 401
def StatusNotFound : Nat := 404
def StatusInternalServerError : Nat := 500

/-- The call `http.Error(w, msg, code)`. -/
def httpError (msg : String) (code : Nat) : Response := ⟨code, Body.text msg⟩

/-- The call `json.NewEncoder(w).Encode(v)` with no earlier `WriteHeader`: status 200. -/
def jsonEncode (v : Body) : Response := ⟨StatusOK, v⟩

/-- How serving a request ends: a response is written, or the goroutine panics. -/
inductive Outcome where
  | responded (resp : Response)
  | panicked
  deriving DecidableEq

/-- An `http.Handler` over the shared `todoList`. -/
abbrev Handler := Request → List Todo → List Todo × Response

/-! ## Handlers -/

/-- The function `authMiddleware`. -/
def authMiddleware (verify : GoString → Bool) (next : Handler)
    (r : Request) (todoList : List Todo) : List Todo × Outcome :=
  let tokenStr := r.authorization
  if tokenStr = [] then
    (todoList, Outcome.responded (httpError "Authorization header is missing" StatusUnauthorized))
  else
    match sliceFrom tokenStr 7 with
    | none => (todoList, Outcome.panicked)
    | some tokenStr =>
      if !verify tokenStr then
        (todoList, Outcome.responded (httpError "Invalid or expired token" StatusUnauthorized))
      else
        let res := next r todoList
        (res.1, Outcome.responded res.2)

/-- The function `loginHandler`. -/
def loginHandler (decodeUser : GoString → Option User)
    (signedString : GoString → Time → Option GoString) (now : Time)
    (r : Request) : Response :=
  match decodeUser r.body with
  | none => httpError "Invalid request payload" StatusBadRequest
  | some creds =>
    match users.lookup creds.Username with
    | none => httpError "Invalid credentials" StatusUnauthorized
    | some storedPassword =>
      if storedPassword ≠ creds.Password then
        httpError "Invalid credentials" StatusUnauthorized
      else
        let expirationTime := now + 5 * Minute
        match signedString creds.Username expirationTime with
        | none => httpError "Could not generate token" StatusInternalServerError
        | some tokenStr => jsonEncode (Body.token tokenStr)

/-- The function `getTodosHandler`. -/
def getTodosHandler (_r : Request) (todoList : List Todo) : List Todo × Response :=
  (todoList, jsonEncode (Body.todos todoList))

/-- The function `createTodoHandler`; `newID` is the value returned by `uuid.New()`. -/
def createTodoHandler (decodeTodo : GoString → Option Todo) (newID : UUID)
    (r : Request) (todoList : List Todo) : List Todo × Response :=
  match decodeTodo r.body with
  | none => (todoList, httpError "Invalid request payload" StatusBadRequest)
  | some newTodo =>
    let newTodo := { newTodo with ID := newID }
    (todoList ++ [newTodo], jsonEncode (Body.todo newTodo))

/-- The loop `for _, todo := range todoList` of `getTodoHandler`, on the records not yet visited. -/
def getTodoLoop (id : GoString) : List Todo → Response
  | [] => httpError "Todo not found" StatusNotFound
  | todo :: rest =>
    if todo.ID.String = id then jsonEncode (Body.todo todo) else getTodoLoop id rest

/-- The function `getTodoHandler`. -/
def getTodoHandler (r : Request) (todoList : List Todo) : List Todo × Response :=
  (todoList, getTodoLoop r.id todoList)

/-- The loop `for i, todo := range todoList` of `updateTodoHandler`: `i` is the
current index and the last argument holds the records from index `i` on. -/
def updateTodoLoop (decodeTodo : GoString → Option Todo) (r : Request) (todoList : List Todo) :
    Nat → List Todo → List Todo × Response
  | _, [] => (todoList, httpError "Todo not found" StatusNotFound)
  | i, todo :: rest =>
    if todo.ID.String = r.id then
      match decodeTodo r.body with
      | none => (todoList, httpError "Invalid request payload" StatusBadRequest)
      | some updatedTodo =>
        let todoList := todoList.set i updatedTodo
        (todoList, jsonEncode (Body.todo (todoList.getD i default)))
    else updateTodoLoop decodeTodo r todoList (i + 1) rest

/-- The function `updateTodoHandler`. -/
def updateTodoHandler (decodeTodo : GoString → Option Todo)
    (r : Request) (todoList : List Todo) : List Todo × Response :=
  updateTodoLoop decodeTodo r todoList 0 todoList

/-- The loop `for i, todo := range todoList` of `deleteTodoHandler`: `i` is the
current index and the last argument holds the records from index `i` on. -/
def deleteTodoLoop (r : Request) (todoList : List Todo) :
    Nat → List Todo → List Todo × Response
  | _, [] => (todoList, httpError "Todo not found" StatusNotFound)
  | i, todo :: rest =>
    if todo.ID.String = r.id then
      (todoList.take i ++ todoList.drop (i + 1), ⟨StatusNoContent, Body.empty⟩)
    else deleteTodoLoop r todoList (i + 1) rest

/-- The function `deleteTodoHandler`. -/
def deleteTodoHandler (r : Request) (todoList : List Todo) : List Todo × Response :=
  deleteTodoLoop r todoList 0 todoList

/-! ## Sequences of store operations -/

/-- A create, replace or delete request reaching the record store. -/
inductive Op where
  | create (newID : UUID) (r : Request)
  | replace (r : Request)
  | delete (r : Request)

/-- The `todoList` left by one operation. -/
def step (decodeTodo : GoString → Option Todo) (todoList : List Todo) : Op → List Todo
  | Op.create newID r => (createTodoHandler decodeTodo newID r todoList).1
  | Op.replace r => (updateTodoHandler decodeTodo r todoList).1
  | Op.delete r => (deleteTodoHandler r todoList).1

/-- The `todoList` after a sequence of operations, starting from `var todoList = []Todo{}`. -/
def run (decodeTodo : GoString → Option Todo) (ops : List Op) : List Todo :=
  ops.foldl (step decodeTodo) []

/-! ## Sample values -/

/-- A sample identifier, `12345678-9abc-def0-0102-0304050607ff`. -/
def idA : UUID := ⟨[0x12, 0x34, 0x56, 0x78, 0x9a, 0xbc, 0xde, 0xf0, 1, 2, 3, 4, 5, 6, 7, 255], by decide⟩

/-- A second sample identifier, `000102030405060708090a0b0c0d0e0f` with dashes. -/
def idB : UUID := ⟨[0, 1, 2, 3, 4, 5, 6, 7, 8, 9, 10, 11, 12, 13, 14, 15], by decide⟩

/-- The record appended by `TestUpdateTodoHandler`, with identifier `idA`. -/
def testTodo : Todo := ⟨idA, str "Test Todo", str "Test Description", 24⟩

/-- The payload of `TestUpdateTodoHandler` once decoded: no `id`, hence the zero `ID`. -/
def updatedPayload : Todo := ⟨UUID.Nil, str "Updated Todo", str "Updated Description", 48⟩

/-- A decoder that yields the record `t` on every body. -/
def decodeTo (t : Todo) : GoString → Option Todo := fun _ => some t

/-- A decoder that yields the credentials `u` on every body. -/
def decodeUserTo (u : User) : GoString → Option User := fun _ => some u

/-- A signing function that returns the user name as token. -/
def signName : GoString → Time → Option GoString := fun name _ => some name

/-- A request for the path `/api/todos/{id}` with the given `id` and empty body. -/
def reqFor (id : GoString) : Request := ⟨[], id, []⟩

/-! ## The textual form of identifiers is injective -/

theorem hexDigit_inj :
    ∀ a b : Fin 16, hextable.getD a.val 0 = hextable.getD b.val 0 → a = b := by
  decide

theorem hexByte_inj (v w : Byte)
    (h1 : hextable.getD (v.val >>> 4) 0 = hextable.getD (w.val >>> 4) 0)
    (h2 : hextable.getD (v.val &&& 0x0f) 0 = hextable.getD (w.val &&& 0x0f) 0) : v = w := by
  have hv := v.isLt
  have hw := w.isLt
  have ev : v.val &&& 0x0f = v.val % 16 := Nat.and_pow_two_sub_one_eq_mod v.val 4
  have ew : w.val &&& 0x0f = w.val % 16 := Nat.and_pow_two_sub_one_eq_mod w.val 4
  rw [Nat.shiftRight_eq_div_pow, Nat.shiftRight_eq_div_pow] at h1
  rw [ev, ew] at h2
  have a1 := hexDigit_inj ⟨v.val / 2 ^ 4, by omega⟩ ⟨w.val / 2 ^ 4, by omega⟩ h1
  have a2 := hexDigit_inj ⟨v.val % 16, by omega⟩ ⟨w.val % 16, by omega⟩ h2
  simp only [Fin.mk.injEq] at a1 a2
  apply Fin.ext
  omega

theorem hexEncode_length (src : List Byte) : (hexEncode src).length = 2 * src.length := by
  induction src with
  | nil => rfl
  | cons v src ih => simp only [hexEncode, List.length_cons, ih]; omega

theorem hexEncode_inj : ∀ a b : List Byte, hexEncode a = hexEncode b → a = b
  | [], [] => fun _ => rfl
  | [], _ :: _ => fun h => by simp [hexEncode] at h
  | _ :: _, [] => fun h => by simp [hexEncode] at h
  | v :: a, w :: b => fun h => by
    simp only [hexEncode, List.cons.injEq] at h
    rw [hexByte_inj v w h.1 h.2.1, hexEncode_inj a b h.2.2]

/-- Two identifiers with the same `String()` are the same identifier. -/
theorem UUID.String_injective (u w : UUID) (h : u.String = w.String) : u = w := by
  have hu := u.size
  have hw := w.size
  unfold UUID.String at h
  obtain ⟨h, e5⟩ := List.append_inj' h (by simp [hexEncode_length, hu, hw])
  obtain ⟨h, e4⟩ := List.append_inj' h (by simp [hexEncode_length, hu, hw])
  obtain ⟨h, e3⟩ := List.append_inj' h (by simp [hexEncode_length, hu, hw])
  obtain ⟨e1, e2⟩ := List.append_inj' h (by simp [hexEncode_length, hu, hw])
  have e1 := hexEncode_inj _ _ e1
  have e2 := hexEncode_inj _ _ (List.cons.inj e2).2
  have e3 := hexEncode_inj _ _ (List.cons.inj e3).2
  have e4 := hexEncode_inj _ _ (List.cons.inj e4).2
  have e5 := hexEncode_inj _ _ (List.cons.inj e5).2
  have key : ∀ l : List Byte, l = l.take 4 ++ ((l.drop 4).take 2 ++ ((l.drop 6).take 2 ++
      ((l.drop 8).take 2 ++ l.drop 10))) := by
    intro l
    have a1 := List.take_append_drop 4 l
    have a2 := List.take_append_drop 2 (l.drop 4)
    have a3 := List.take_append_drop 2 (l.drop 6)
    have a4 := List.take_append_drop 2 (l.drop 8)
    simp only [List.drop_drop] at a2 a3 a4
    norm_num at a2 a3 a4
    rw [a4, a3, a2, a1]
  have : u.bytes = w.bytes := by
    rw [key u.bytes, key w.bytes, e1, e2, e3, e4, e5]
  cases u; cases w; simp only [UUID.mk.injEq]; exact this

/-! ## The scanning loops -/

/-- A scan over records none of which has the identifier ends in 404. -/
theorem getTodoLoop_notFound (id : GoString) (l : List Todo)
    (h : ∀ x ∈ l, x.ID.String ≠ id) :
    getTodoLoop id l = httpError "Todo not found" StatusNotFound := by
  induction l with
  | nil => rfl
  | cons t l ih =>
    have ht : t.ID.String ≠ id := h t (List.mem_cons_self t l)
    simp only [getTodoLoop, if_neg ht]
    exact ih (fun x hx => h x (List.mem_cons_of_mem t hx))

/-- A scan returns the first record that has the identifier. -/
theorem getTodoLoop_found (id : GoString) (pre : List Todo) (t : Todo) (post : List Todo)
    (hpre : ∀ x ∈ pre, x.ID.String ≠ id) (ht : t.ID.String = id) :
    getTodoLoop id (pre ++ t :: post) = jsonEncode (Body.todo t) := by
  induction pre with
  | nil => simp only [List.nil_append, getTodoLoop, if_pos ht]
  | cons p pre ih =>
    have hp : p.ID.String ≠ id := hpre p (List.mem_cons_self p pre)
    simp only [List.cons_append, getTodoLoop, if_neg hp]
    exact ih (fun x hx => hpre x (List.mem_cons_of_mem p hx))

/-- The delete loop, started at index `pre.length` with `pre` free of the
identifier: either no record is left with it and the answer is 404 on an
unchanged list, or the list splits at the first such record, which is dropped. -/
theorem deleteTodoLoop_spec (r : Request) (todoList : List Todo) :
    ∀ (rest pre : List Todo), todoList = pre ++ rest → (∀ x ∈ pre, x.ID.String ≠ r.id) →
      ((∀ x ∈ todoList, x.ID.String ≠ r.id) ∧
        deleteTodoLoop r todoList pre.length rest =
          (todoList, httpError "Todo not found" StatusNotFound)) ∨
      (∃ pre1 t post, todoList = pre1 ++ t :: post ∧ (∀ x ∈ pre1, x.ID.String ≠ r.id) ∧
        t.ID.String = r.id ∧
        deleteTodoLoop r todoList pre.length rest = (pre1 ++ post, ⟨StatusNoContent, Body.empty⟩)) := by
  intro rest
  induction rest with
  | nil =>
    intro pre hl hpre
    left
    refine ⟨?_, rfl⟩
    rw [hl, List.append_nil]
    exact hpre
  | cons t rest ih =>
    intro pre hl hpre
    by_cases ht : t.ID.String = r.id
    · right
      refine ⟨pre, t, rest, hl, hpre, ht, ?_⟩
      simp only [deleteTodoLoop, if_pos ht]
      rw [hl]
      simp
    · have hl2 : todoList = (pre ++ [t]) ++ rest := by rw [hl]; simp
      have hpre2 : ∀ x ∈ pre ++ [t], x.ID.String ≠ r.id := by
        intro x hx
        rcases List.mem_append.mp hx with hx | hx
        · exact hpre x hx
        · rw [List.mem_singleton.mp hx]; exact ht
      have := ih (pre ++ [t]) hl2 hpre2
      simp only [deleteTodoLoop, if_neg ht]
      simpa using this

/-- The delete handler: 404 on an unchanged list when no record has the
identifier, otherwise 204 and the first record with it is dropped. -/
theorem deleteTodoHandler_spec (r : Request) (todoList : List Todo) :
    ((∀ x ∈ todoList, x.ID.String ≠ r.id) ∧
      deleteTodoHandler r todoList = (todoList, httpError "Todo not found" StatusNotFound)) ∨
    (∃ pre t post, todoList = pre ++ t :: post ∧ (∀ x ∈ pre, x.ID.String ≠ r.id) ∧
      t.ID.String = r.id ∧
      deleteTodoHandler r todoList = (pre ++ post, ⟨StatusNoContent, Body.empty⟩)) := by
  have h := deleteTodoLoop_spec r todoList todoList [] rfl (by simp)
  exact h

/-- C7: `deleteTodoHandler` answers 204 exactly when some stored record has the
identifier of the request and 404 exactly when none has; on 204 the list splits
as `pre ++ t :: post` with `t` the first record with that identifier and the new
list is `pre ++ post`, one record shorter; on 404 the list is unchanged. -/
theorem deleteTodoHandler_removes_first (r : Request) (todoList : List Todo) :
    ((deleteTodoHandler r todoList).2.status = StatusNoContent ↔
      ∃ t ∈ todoList, t.ID.String = r.id) ∧
    ((deleteTodoHandler r todoList).2.status = StatusNotFound ↔
      ¬ ∃ t ∈ todoList, t.ID.String = r.id) ∧
    ((deleteTodoHandler r todoList).2.status = StatusNoContent →
      ∃ pre t post, todoList = pre ++ t :: post ∧ (∀ x ∈ pre, x.ID.String ≠ r.id) ∧
        t.ID.String = r.id ∧ (deleteTodoHandler r todoList).1 = pre ++ post ∧
        (deleteTodoHandler r todoList).1.length + 1 = todoList.length) ∧
    ((deleteTodoHandler r todoList).2.status = StatusNotFound →
      (deleteTodoHandler r todoList).1 = todoList) := by
  rcases deleteTodoHandler_spec r todoList with ⟨hno, h⟩ | ⟨pre, t, post, hl, hpre, ht, h⟩
  · rw [h]
    have hnone : ¬ ∃ t ∈ todoList, t.ID.String = r.id := by
      rintro ⟨t, htm, hti⟩
      exact hno t htm hti
    refine ⟨?_, ?_, ?_, ?_⟩
    · simp [httpError, StatusNotFound, StatusNoContent, hnone]
    · simp [httpError, hnone]
    · simp [httpError, StatusNotFound, StatusNoContent]
    · intro _; rfl
  · rw [h]
    have hsome : ∃ t ∈ todoList, t.ID.String = r.id :=
      ⟨t, by rw [hl]; simp, ht⟩
    refine ⟨?_, ?_, ?_, ?_⟩
    · simp [hsome]
    · simp [StatusNotFound, StatusNoContent, hsome]
    · intro _
      exact ⟨pre, t, post, hl, hpre, ht, rfl, by rw [hl]; simp; omega⟩
    · simp [StatusNotFound, StatusNoContent]

/-- C7, witness: deleting the only record, stored under `idA`, answers 204 and
leaves the empty list. -/
theorem deleteTodoHandler_removes_first_witness :
    (deleteTodoHandler (reqFor idA.String) [testTodo]).2.status = StatusNoContent ∧
    (deleteTodoHandler (reqFor idB.String) [testTodo]).1 = [testTodo] :=
  ⟨(deleteTodoHandler_removes_first (reqFor idA.String) [testTodo]).1.mpr
      ⟨testTodo, List.mem_singleton.mpr rfl, rfl⟩,
    (deleteTodoHandler_removes_first (reqFor idB.String) [testTodo]).2.2.2
      ((deleteTodoHandler_removes_first (reqFor idB.String) [testTodo]).2.1.mpr (by decide))⟩

/-- C3 (amended): when at most one stored record has the identifier, a fetch by
that identifier after `deleteTodoHandler` with it answers 404 "Todo not found". -/
theorem get_after_delete_notFound (r r' : Request) (todoList : List Todo)
    (hid : r'.id = r.id)
    (huniq : todoList.countP (fun t => decide (t.ID.String = r.id)) ≤ 1) :
    (getTodoHandler r' (deleteTodoHandler r todoList).1).2 =
      httpError "Todo not found" StatusNotFound := by
  unfold getTodoHandler
  rw [hid]
  rcases deleteTodoHandler_spec r todoList with ⟨hno, h⟩ | ⟨pre, t, post, hl, hpre, ht, h⟩
  · rw [h]
    exact getTodoLoop_notFound r.id todoList hno
  · rw [h]
    apply getTodoLoop_notFound
    rw [hl] at huniq
    simp only [List.countP_append, List.countP_cons, ht, decide_True, if_true] at huniq
    have hpost : post.countP (fun t => decide (t.ID.String = r.id)) = 0 := by omega
    rw [List.countP_eq_zero] at hpost
    intro x hx
    rcases List.mem_append.mp hx with hx | hx
    · exact hpre x hx
    · simpa using hpost x hx

/-- C3, witness: one record with the identifier, then delete and fetch. -/
theorem get_after_delete_notFound_witness :
    (getTodoHandler (reqFor idA.String)
      (deleteTodoHandler (reqFor idA.String) [testTodo]).1).2 =
      httpError "Todo not found" StatusNotFound :=
  get_after_delete_notFound (reqFor idA.String) (reqFor idA.String) [testTodo] rfl (by decide)

/-- C3, counterexample: with two stored records of the same identifier, delete
drops the first only and the fetch that follows answers 200 with the second. -/
theorem get_after_delete_found_on_duplicate :
    (getTodoHandler (reqFor idA.String)
      (deleteTodoHandler (reqFor idA.String) [testTodo, testTodo]).1).2 =
      jsonEncode (Body.todo testTodo) ∧
    (jsonEncode (Body.todo testTodo)).status = 200 := by
  decide

/-- C1, at the failing input: the record with identifier `idA` is replaced
through its own path. With the payload of `TestUpdateTodoHandler` (no `id`) the
slot and the response carry the zero identifier, and with a payload carrying
`idB` they carry `idB`; in both cases the identifier `idA` is lost. -/
theorem updateTodoHandler_overwrites_id :
    testTodo.ID = idA ∧
    updateTodoHandler (decodeTo updatedPayload) (reqFor idA.String) [testTodo] =
      ([updatedPayload], jsonEncode (Body.todo updatedPayload)) ∧
    updatedPayload.ID = UUID.Nil ∧ UUID.Nil ≠ idA ∧
    updateTodoHandler (decodeTo { updatedPayload with ID := idB }) (reqFor idA.String) [testTodo] =
      ([{ updatedPayload with ID := idB }],
        jsonEncode (Body.todo { updatedPayload with ID := idB })) ∧
    idB ≠ idA := by
  decide

/-- C2, at the failing input: two creates with distinct fresh identifiers, then a
replace of each record with a payload without `id`, leave two records that both
have the zero identifier. -/
theorem run_replace_duplicates_ids :
    idA ≠ idB ∧
    (run (decodeTo updatedPayload)
      [Op.create idA (reqFor []), Op.create idB (reqFor []),
        Op.replace (reqFor idA.String), Op.replace (reqFor idB.String)]).map Todo.ID =
      [UUID.Nil, UUID.Nil] ∧
    ¬ ((run (decodeTo updatedPayload)
      [Op.create idA (reqFor []), Op.create idB (reqFor []),
        Op.replace (reqFor idA.String), Op.replace (reqFor idB.String)]).map Todo.ID).Nodup := by
  decide

/-- Create keeps identifiers pairwise distinct when the new one is fresh. -/
theorem createTodoHandler_nodup (decodeTodo : GoString → Option Todo) (newID : UUID)
    (r : Request) (todoList : List Todo) (hn : (todoList.map Todo.ID).Nodup)
    (hfresh : ∀ t ∈ todoList, t.ID ≠ newID) :
    ((createTodoHandler decodeTodo newID r todoList).1.map Todo.ID).Nodup := by
  unfold createTodoHandler
  cases decodeTodo r.body with
  | none => exact hn
  | some p =>
    simp only [List.map_append, List.map_cons, List.map_nil]
    rw [List.nodup_append]
    refine ⟨hn, List.nodup_singleton _, ?_⟩
    intro a ha hb
    rw [List.mem_singleton] at hb
    obtain ⟨t, ht, hta⟩ := List.mem_map.mp ha
    exact hfresh t ht (hta.trans hb)

/-- Delete keeps identifiers pairwise distinct. -/
theorem deleteTodoHandler_nodup (r : Request) (todoList : List Todo)
    (hn : (todoList.map Todo.ID).Nodup) :
    ((deleteTodoHandler r todoList).1.map Todo.ID).Nodup := by
  rcases deleteTodoHandler_spec r todoList with ⟨_, h⟩ | ⟨pre, t, post, hl, _, _, h⟩
  · rw [h]; exact hn
  · rw [h]
    rw [hl] at hn
    simp only [List.map_append, List.map_cons] at hn ⊢
    exact hn.sublist (List.Sublist.append_left (List.sublist_cons_self _ _) _)

/-- C4: when the body decodes to `payload` and no stored record has the
generated identifier, `createTodoHandler` answers 200 with the record made of
that identifier and the title, description and due date of the payload, and a
fetch by that identifier on the new list answers with the same response. -/
theorem get_after_create (decodeTodo : GoString → Option Todo) (newID : UUID)
    (r r' : Request) (todoList : List Todo) (payload : Todo)
    (hdec : decodeTodo r.body = some payload)
    (hfresh : ∀ t ∈ todoList, t.ID ≠ newID)
    (hid : r'.id = newID.String) :
    (createTodoHandler decodeTodo newID r todoList).2 =
      ⟨StatusOK, Body.todo ⟨newID, payload.Title, payload.Description, payload.DueDate⟩⟩ ∧
    (getTodoHandler r' (createTodoHandler decodeTodo newID r todoList).1).2 =
      (createTodoHandler decodeTodo newID r todoList).2 := by
  unfold createTodoHandler getTodoHandler
  rw [hdec, hid]
  refine ⟨rfl, ?_⟩
  simp only
  apply getTodoLoop_found
  · intro x hx hs
    exact hfresh x hx (UUID.String_injective _ _ hs)
  · rfl

/-- C4, witness: create with identifier `idB` on a list holding `idA`. -/
theorem get_after_create_witness :
    (createTodoHandler (decodeTo updatedPayload) idB (reqFor []) [testTodo]).2 =
      ⟨StatusOK, Body.todo ⟨idB, updatedPayload.Title, updatedPayload.Description,
        updatedPayload.DueDate⟩⟩ ∧
    (getTodoHandler (reqFor idB.String)
      (createTodoHandler (decodeTo updatedPayload) idB (reqFor []) [testTodo]).1).2 =
      (createTodoHandler (decodeTo updatedPayload) idB (reqFor []) [testTodo]).2 :=
  get_after_create (decodeTo updatedPayload) idB (reqFor []) (reqFor idB.String) [testTodo]
    updatedPayload rfl (by decide) rfl

/-- C5: for decoded credentials, `loginHandler` answers 401 "Invalid
credentials" exactly when the pair is neither (user1, password1) nor
(user2, password2); for these two pairs it goes on to sign a token for the user
name, expiring five minutes after `now`, and answers 200 with the token (500
when signing fails). -/
theorem loginHandler_accepts_iff (decodeUser : GoString → Option User)
    (signedString : GoString → Time → Option GoString) (now : Time) (r : Request)
    (creds : User) (hdec : decodeUser r.body = some creds) :
    (loginHandler decodeUser signedString now r =
        httpError "Invalid credentials" StatusUnauthorized ↔
      ¬ ((creds.Username = str "user1" ∧ creds.Password = str "password1") ∨
         (creds.Username = str "user2" ∧ creds.Password = str "password2"))) ∧
    ((loginHandler decodeUser signedString now r).status = StatusUnauthorized ↔
      ¬ ((creds.Username = str "user1" ∧ creds.Password = str "password1") ∨
         (creds.Username = str "user2" ∧ creds.Password = str "password2"))) ∧
    (((creds.Username = str "user1" ∧ creds.Password = str "password1") ∨
      (creds.Username = str "user2" ∧ creds.Password = str "password2")) →
      loginHandler decodeUser signedString now r =
        match signedString creds.Username (now + 5 * Minute) with
        | none => httpError "Could not generate token" StatusInternalServerError
        | some tokenStr => ⟨StatusOK, Body.token tokenStr⟩) := by
  have h12 : str "user1" ≠ str "user2" := by decide
  unfold loginHandler
  rw [hdec]
  simp only [users, List.lookup]
  by_cases h1 : creds.Username = str "user1"
  · have hb : (creds.Username == str "user1") = true := by simp [h1]
    have h2 : creds.Username ≠ str "user2" := by rw [h1]; exact h12
    simp only [hb]
    by_cases hp : creds.Password = str "password1"
    · have hne : ¬ (str "password1" ≠ creds.Password) := by simp [hp]
      simp only [if_neg hne]
      cases signedString creds.Username (now + 5 * Minute) <;>
        simp [h1, hp, httpError, jsonEncode, StatusOK, StatusUnauthorized,
          StatusInternalServerError]
    · have hne : str "password1" ≠ creds.Password := fun h => hp h.symm
      simp [if_pos hne, h1, hp, h12, httpError]
  · have hb : (creds.Username == str "user1") = false := by simp [h1]
    simp only [hb]
    by_cases h2 : creds.Username = str "user2"
    · have hb2 : (creds.Username == str "user2") = true := by simp [h2]
      simp only [hb2]
      by_cases hp : creds.Password = str "password2"
      · have hne : ¬ (str "password2" ≠ creds.Password) := by simp [hp]
        simp only [if_neg hne]
        cases signedString creds.Username (now + 5 * Minute) <;>
          simp [h2, hp, h12.symm, httpError, jsonEncode, StatusOK, StatusUnauthorized,
            StatusInternalServerError]
      · have hne : str "password2" ≠ creds.Password := fun h => hp h.symm
        simp [if_pos hne, h2, hp, h12.symm, httpError]
    · have hb2 : (creds.Username == str "user2") = false := by simp [h2]
      simp [hb2, h1, h2, httpError]

/-- C5, witness: (user1, password1) is accepted and gets a token; user1 with a
wrong password and an unknown user with the empty password get 401. -/
theorem loginHandler_accepts_iff_witness :
    loginHandler (decodeUserTo ⟨str "user1", str "password1"⟩) signName 0 (reqFor []) =
      ⟨StatusOK, Body.token (str "user1")⟩ ∧
    loginHandler (decodeUserTo ⟨str "user1", str "wrong"⟩) signName 0 (reqFor []) =
      httpError "Invalid credentials" StatusUnauthorized ∧
    loginHandler (decodeUserTo ⟨str "nobody", []⟩) signName 0 (reqFor []) =
      httpError "Invalid credentials" StatusUnauthorized :=
  ⟨(loginHandler_accepts_iff (decodeUserTo ⟨str "user1", str "password1"⟩) signName 0 (reqFor [])
      ⟨str "user1", str "password1"⟩ rfl).2.2 (Or.inl ⟨rfl, rfl⟩),
    (loginHandler_accepts_iff (decodeUserTo ⟨str "user1", str "wrong"⟩) signName 0 (reqFor [])
      ⟨str "user1", str "wrong"⟩ rfl).1.mpr (by decide),
    (loginHandler_accepts_iff (decodeUserTo ⟨str "nobody", []⟩) signName 0 (reqFor [])
      ⟨str "nobody", []⟩ rfl).1.mpr (by decide)⟩

/-- The guard on a header that is empty or at least 7 bytes long: 401 on an
unchanged list unless the header is not empty and `verify` accepts what follows
its first 7 bytes, in which case the outcome is that of the wrapped handler. -/
theorem authMiddleware_of_sliceable (verify : GoString → Bool) (next : Handler) (r : Request)
    (todoList : List Todo) (hlen : r.authorization = [] ∨ 7 ≤ r.authorization.length) :
    authMiddleware verify next r todoList =
      if r.authorization ≠ [] ∧ verify (r.authorization.drop 7) = true then
        ((next r todoList).1, Outcome.responded (next r todoList).2)
      else
        (todoList, Outcome.responded
          (httpError (if r.authorization = [] then "Authorization header is missing"
            else "Invalid or expired token") StatusUnauthorized)) := by
  unfold authMiddleware
  by_cases he : r.authorization = []
  · simp [he]
  · have h7 : 7 ≤ r.authorization.length := by
      rcases hlen with h | h
      · exact absurd h he
      · exact h
    simp only [he, if_false, sliceFrom, if_pos h7]
    cases hv : verify (List.drop 7 r.authorization) <;> simp [he]

/-- C6, at the failing input: a request whose `Authorization` header is the six
bytes `Bearer` makes the guard panic; no 401 is written, the wrapped handler is
not called and the list is unchanged. -/
theorem authMiddleware_panics_on_short_header (verify : GoString → Bool) (next : Handler)
    (todoList : List Todo) :
    authMiddleware verify next ⟨str "Bearer", [], []⟩ todoList = (todoList, Outcome.panicked) := by
  have h : sliceFrom (str "Bearer") 7 = none := by decide
  have h0 : str "Bearer" ≠ [] := by decide
  unfold authMiddleware
  simp only [h0, if_false, h]

/-- Creates only: the list after a run of creates, started from `init`. -/
theorem foldl_create (decodeTodo : GoString → Option Todo) (cs : List (UUID × Request)) :
    ∀ init : List Todo,
      (cs.map (fun c => Op.create c.1 c.2)).foldl (step decodeTodo) init =
        init ++ cs.filterMap
          (fun c => (decodeTodo c.2.body).map (fun newTodo => { newTodo with ID := c.1 })) := by
  induction cs with
  | nil => intro init; simp
  | cons c cs ih =>
    intro init
    simp only [List.map_cons, List.foldl_cons, ih, step, createTodoHandler]
    cases hd : decodeTodo c.2.body <;> simp [List.filterMap_cons, hd]

/-- C8: when the body decodes to `payload`, `createTodoHandler` leaves the list
as the old list followed by the new record (generated identifier, fields of the
payload) and answers with that record, so the listing afterwards is the
listing before followed by the new record; and after any run of creates from
the empty list the listing holds the created records in the order of creation. -/
theorem createTodoHandler_appends (decodeTodo : GoString → Option Todo) (newID : UUID)
    (r r' : Request) (todoList : List Todo) (payload : Todo)
    (hdec : decodeTodo r.body = some payload) :
    (createTodoHandler decodeTodo newID r todoList).1 =
      todoList ++ [⟨newID, payload.Title, payload.Description, payload.DueDate⟩] ∧
    (createTodoHandler decodeTodo newID r todoList).2 =
      ⟨StatusOK, Body.todo ⟨newID, payload.Title, payload.Description, payload.DueDate⟩⟩ ∧
    (getTodosHandler r' todoList).2 = ⟨StatusOK, Body.todos todoList⟩ ∧
    (getTodosHandler r' (createTodoHandler decodeTodo newID r todoList).1).2 =
      ⟨StatusOK, Body.todos
        (todoList ++ [⟨newID, payload.Title, payload.Description, payload.DueDate⟩])⟩ ∧
    (∀ cs : List (UUID × Request),
      (getTodosHandler r' (run decodeTodo (cs.map (fun c => Op.create c.1 c.2)))).2 =
        ⟨StatusOK, Body.todos (cs.filterMap
          (fun c => (decodeTodo c.2.body).map (fun newTodo => { newTodo with ID := c.1 })))⟩) := by
  refine ⟨?_, ?_, rfl, ?_, ?_⟩
  · unfold createTodoHandler; rw [hdec]
  · unfold createTodoHandler; rw [hdec]; rfl
  · unfold createTodoHandler getTodosHandler; rw [hdec]; rfl
  · intro cs
    unfold getTodosHandler run
    rw [foldl_create]
    rfl

/-- C8, witness: a create with identifier `idB` on the list holding `testTodo`. -/
theorem createTodoHandler_appends_witness :
    (createTodoHandler (decodeTo updatedPayload) idB (reqFor []) [testTodo]).1 =
      [testTodo, ⟨idB, updatedPayload.Title, updatedPayload.Description,
        updatedPayload.DueDate⟩] ∧
    (getTodosHandler (reqFor [])
      (createTodoHandler (decodeTo updatedPayload) idB (reqFor []) [testTodo]).1).2 =
      ⟨StatusOK, Body.todos [testTodo, ⟨idB, updatedPayload.Title, updatedPayload.Description,
        updatedPayload.DueDate⟩]⟩ :=
  have h := createTodoHandler_appends (decodeTo updatedPayload) idB (reqFor []) (reqFor [])
    [testTodo] updatedPayload rfl
  ⟨h.1, h.2.2.2.1⟩

/-- C10 (amended): for a header that is not empty and shorter than 7 bytes the
slice `tokenStr[7:]` is out of range and the guard panics, writing no response
and leaving the list unchanged; for the empty header the guard answers 401
"Authorization header is missing" on an unchanged list, before the slice is
reached; for a header of at least 7 bytes the slice is the header without its
first 7 bytes, that slice is what the guard hands to `verify`, and the guard
writes a response: that of the wrapped handler when `verify` accepts the slice,
401 "Invalid or expired token" on an unchanged list otherwise. -/
theorem authMiddleware_slice (verify : GoString → Bool) (next : Handler) (r : Request)
    (todoList : List Todo) :
    (r.authorization ≠ [] ∧ r.authorization.length < 7 →
      sliceFrom r.authorization 7 = none ∧
      authMiddleware verify next r todoList = (todoList, Outcome.panicked)) ∧
    (r.authorization = [] →
      authMiddleware verify next r todoList =
        (todoList, Outcome.responded
          (httpError "Authorization header is missing" StatusUnauthorized))) ∧
    (7 ≤ r.authorization.length →
      sliceFrom r.authorization 7 = some (r.authorization.drop 7) ∧
      (∃ l resp, authMiddleware verify next r todoList = (l, Outcome.responded resp)) ∧
      authMiddleware verify next r todoList =
        if verify (r.authorization.drop 7) = true then
          ((next r todoList).1, Outcome.responded (next r todoList).2)
        else
          (todoList, Outcome.responded
            (httpError "Invalid or expired token" StatusUnauthorized))) := by
  refine ⟨?_, ?_, ?_⟩
  · rintro ⟨hne, hlt⟩
    have hs : sliceFrom r.authorization 7 = none := by
      unfold sliceFrom
      rw [if_neg (by omega)]
    refine ⟨hs, ?_⟩
    unfold authMiddleware
    simp only [hne, if_false, hs]
  · intro he
    rw [authMiddleware_of_sliceable verify next r todoList (Or.inl he)]
    simp [he]
  · intro h7
    have hne : r.authorization ≠ [] := by
      intro he
      rw [he] at h7
      simp at h7
    have heq := authMiddleware_of_sliceable verify next r todoList (Or.inr h7)
    refine ⟨by unfold sliceFrom; rw [if_pos h7], ?_, ?_⟩
    · rw [heq]
      split
      · exact ⟨_, _, rfl⟩
      · exact ⟨_, _, rfl⟩
    · rw [heq]
      cases hv : verify (List.drop 7 r.authorization) <;> simp [hne]

/-- C10, witness: the header `Bearer` (6 bytes) panics; the empty header gets
401 while a record is stored and `verify` accepts everything; the header
`Bearer abc` is sliced to `abc`, and the guard passes the request on exactly
when `verify` accepts `abc`. -/
theorem authMiddleware_slice_witness :
    authMiddleware (fun _ => true) getTodosHandler ⟨str "Bearer", [], []⟩ [testTodo] =
      ([testTodo], Outcome.panicked) ∧
    authMiddleware (fun _ => true) deleteTodoHandler ⟨[], idA.String, []⟩ [testTodo] =
      ([testTodo], Outcome.responded
        (httpError "Authorization header is missing" StatusUnauthorized)) ∧
    sliceFrom (str "Bearer abc") 7 = some (str "abc") ∧
    authMiddleware (fun t => decide (t = str "abc")) deleteTodoHandler
        ⟨str "Bearer abc", idA.String, []⟩ [testTodo] =
      ([], Outcome.responded ⟨StatusNoContent, Body.empty⟩) ∧
    authMiddleware (fun t => decide (t = str "Bearer abc")) deleteTodoHandler
        ⟨str "Bearer abc", idA.String, []⟩ [testTodo] =
      ([testTodo], Outcome.responded (httpError "Invalid or expired token" StatusUnauthorized)) :=
  ⟨((authMiddleware_slice (fun _ => true) getTodosHandler ⟨str "Bearer", [], []⟩ [testTodo]).1
      (by decide)).2,
    (authMiddleware_slice (fun _ => true) deleteTodoHandler ⟨[], idA.String, []⟩ [testTodo]).2.1
      rfl,
    ((authMiddleware_slice (fun _ => true) getTodosHandler ⟨str "Bearer abc", [], []⟩ []).2.2
      (by decide)).1,
    ((authMiddleware_slice (fun t => decide (t = str "abc")) deleteTodoHandler
      ⟨str "Bearer abc", idA.String, []⟩ [testTodo]).2.2 (by decide)).2.2.trans (by decide),
    ((authMiddleware_slice (fun t => decide (t = str "Bearer abc")) deleteTodoHandler
      ⟨str "Bearer abc", idA.String, []⟩ [testTodo]).2.2 (by decide)).2.2.trans (by decide)⟩

/-- C10, counterexample: the empty header has fewer than 7 bytes, yet the guard
writes a response, 401 "Authorization header is missing". -/
theorem authMiddleware_empty_header_responds :
    (([] : GoString).length < 7) ∧
    authMiddleware (fun _ => true) getTodosHandler ⟨[], [], []⟩ [] =
      ([], Outcome.responded (httpError "Authorization header is missing" StatusUnauthorized)) := by
  decide

end GoTodo
